import Mathlib

/-!
Verification of the cabling-reconciliation and VLAN-registry logic of
`network_importer/main.py` (class `NetworkImporter`), shallowly embedded in
Lean 4.  Pure fragments of the Python become Lean functions; the stateful
cabling loop becomes an explicit fold over the list of Batfish layer-3 edge
records, threading the inventory, the `already_connected_links` dictionary and
the list of emitted cable-creation requests.  Python exceptions are modelled
with `Except`.
-/

namespace NetworkImporter

/-- A Python value found in the `interface` field of a Batfish edge endpoint:
normally a string, but the embedding keeps the possibility of a non-string
value (for example a NaN cell of the data frame), on which the Python
`re.sub` raises `TypeError`. -/
inductive PyStr where
  | str (s : String)
  | nonStr
deriving DecidableEq

/-- A Python exception escaping an expression of the loop body. -/
inductive PyFault where
  | typeError
  | attributeError
deriving DecidableEq

/-- `re.sub("\.\d+$", "", s)` from `main.py` line 527/529: if the string ends
in a dot followed by one or more digits, that suffix is removed (the regex
matches the last such dot because of the `$` anchor); otherwise the string is
returned unchanged. -/
def stripSubIntf (s : String) : String :=
  let r := s.data.reverse
  let ds := r.takeWhile Char.isDigit
  let rest := r.drop ds.length
  match ds, rest with
  | [], _ => s
  | _ :: _, c :: rest2 => if c = '.' then String.mk rest2.reverse else s
  | _ :: _, [] => s

/-- Applying `re.sub` to the raw `interface` field: on a non-string value
Python raises `TypeError` before the `try` block of the loop is entered. -/
def reSubSubIntf (v : PyStr) : Except PyFault String :=
  match v with
  | .str s => .ok (stripSubIntf s)
  | .nonStr => .error .typeError

/-- The Python `sorted([x, y])` on two strings (stable sort: swaps iff `y < x`),
with the lexicographic code-point order on strings. -/
def sortedPair (x y : String) : List String :=
  if y < x then [y, x] else [x, y]

/-- `"_".join(sorted([f"{lh}:{li}", f"{rh}:{ri}"]))` — the canonical key of an
undirected link (`unique_id` in `main.py` line 531). -/
def uniqueIdOf (lh li rh ri : String) : String :=
  String.intercalate "_" (sortedPair (lh ++ ":" ++ li) (rh ++ ":" ++ ri))

/-- The `connected_endpoint` attribute of a remote (Netbox) interface:
`connected_endpoint.device.name` and `connected_endpoint.name`. -/
structure ConnectedEndpointRef where
  deviceName : String
  name : String
deriving DecidableEq

/-- The nullable `remote` handle of an interface: remote id,
`connection_status` flag and nullable `connected_endpoint`. -/
structure RemoteInterface where
  id : Nat
  connection_status : Bool
  connected_endpoint : Option ConnectedEndpointRef
deriving DecidableEq

/-- The fields of `NetworkImporterInterface` read by the cabling loop. -/
structure NetworkImporterInterface where
  is_virtual : Bool
  remote : Option RemoteInterface
deriving DecidableEq

/-- The fields of `NetworkImporterDevice` read by the cabling loop: the
mapping `name → Interface`. -/
structure NetworkImporterDevice where
  interfaces : List (String × NetworkImporterInterface)
deriving DecidableEq

/-- `self.devs.inventory.hosts`, restricted to the `data["obj"]` device
objects the cabling loop reads: a mapping hostname → device. -/
abbrev Inventory := List (String × NetworkImporterDevice)

/-- One endpoint of a Batfish layer-3 edge record. -/
structure BfEndpoint where
  hostname : String
  interface : PyStr
deriving DecidableEq

/-- One Batfish layer-3 edge record (`link` in the loop), with its
`Interface` (local end) and `Remote_Interface` (far end) columns. -/
structure BfLink where
  Interface : BfEndpoint
  Remote_Interface : BfEndpoint
deriving DecidableEq

/-- The decision taken for one link observation, mirroring the `continue`
paths and log messages of `main.py` lines 535-645. -/
inductive LinkResult where
  | skipDuplicate (uid : String)
  | skipHostMissing (host : String)
  | skipIntfMissing (host intf : String)
  | skipVirtual (host intf : String)
  | skipNoRemote (host intf : String)
  | conflictDevice (host intf reported observed : String)
  | conflictIntf (host intf reported observed : String)
  | alreadyExact (atLocalEnd : Bool)
  | created (aid bid : Nat)
  | caughtFault (uid : String)
deriving DecidableEq

/-- Lines 584-638: both interfaces resolved, decide between conflict,
already-connected and creation.  Accessing `connected_endpoint.device.name`
when `connected_endpoint` is `None` raises `AttributeError` (caught by the
surrounding `except`).  The second component is the cable-creation request
`(termination_a_id, termination_b_id)`, when one is issued. -/
def checkEnds (lh li rh ri : String) (iA iB : NetworkImporterInterface) :
    Except PyFault (LinkResult × Option (Nat × Nat)) :=
  if iA.is_virtual then .ok (.skipVirtual lh li, none)
  else if iB.is_virtual then .ok (.skipVirtual rh ri, none)
  else match iA.remote with
  | none => .ok (.skipNoRemote lh li, none)
  | some lrem =>
    match iB.remote with
    | none => .ok (.skipNoRemote rh ri, none)
    | some rrem =>
      if lrem.connection_status then
        match lrem.connected_endpoint with
        | none => .error .attributeError
        | some ce =>
          if ce.deviceName ≠ rh then .ok (.conflictDevice lh li ce.deviceName rh, none)
          else if ri ≠ ce.name then .ok (.conflictIntf lh li ce.name ri, none)
          else .ok (.alreadyExact true, none)
      else if rrem.connection_status then
        match rrem.connected_endpoint with
        | none => .error .attributeError
        | some ce =>
          if ce.deviceName ≠ lh then .ok (.conflictDevice rh ri ce.deviceName lh, none)
          else if li ≠ ce.name then .ok (.conflictIntf rh ri ce.name li, none)
          else .ok (.alreadyExact false, none)
      else
        .ok (.created lrem.id rrem.id, some (lrem.id, rrem.id))

/-- The body of the `try` block, lines 535-640: dedup against
`already_connected_links`, host/interface existence checks, then
`checkEnds`. -/
def tryBody (inv : Inventory) (proc : List String)
    (lh li rh ri uid : String) : Except PyFault (LinkResult × Option (Nat × Nat)) :=
  if proc.contains uid then .ok (.skipDuplicate uid, none)
  else match List.lookup lh inv with
  | none => .ok (.skipHostMissing lh, none)
  | some localObj =>
    match List.lookup rh inv with
    | none => .ok (.skipHostMissing rh, none)
    | some remoteObj =>
      match List.lookup li localObj.interfaces with
      | none => .ok (.skipIntfMissing lh li, none)
      | some iA =>
        match List.lookup ri remoteObj.interfaces with
        | none => .ok (.skipIntfMissing rh ri, none)
        | some iB => checkEnds lh li rh ri iA iB

/-- The observable outcome of one run of the cabling pass: the (unchanged)
inventory, the per-observation decisions, the keys of
`already_connected_links`, the emitted cable-creation requests tagged with
their canonical key, and whether an uncaught exception aborted the pass. -/
structure CablingRun where
  inv : Inventory
  results : List LinkResult
  processed : List String
  creates : List (String × Nat × Nat)
  aborted : Bool
deriving DecidableEq

/-- The `for link in p2p_links` loop of lines 524-645.  The endpoint
extraction and key computation (lines 526-533) happen before the `try`
block, so a fault there propagates and aborts the pass; a fault inside
`tryBody` is caught by the bare `except` and logged with `unique_id`
(lines 641-645), and the loop continues.  `already_connected_links` grows
only in the creation branch (line 640). -/
def runCablingGo (inv : Inventory) (links : List BfLink) (proc : List String) :
    CablingRun :=
  match links with
  | [] => ⟨inv, [], proc, [], false⟩
  | l :: ls =>
    match reSubSubIntf l.Interface.interface, reSubSubIntf l.Remote_Interface.interface with
    | .error _, _ => ⟨inv, [], proc, [], true⟩
    | .ok _, .error _ => ⟨inv, [], proc, [], true⟩
    | .ok li, .ok ri =>
      let lh := l.Interface.hostname
      let rh := l.Remote_Interface.hostname
      let uid := uniqueIdOf lh li rh ri
      match tryBody inv proc lh li rh ri uid with
      | .error _ =>
        let rest := runCablingGo inv ls proc
        { rest with results := .caughtFault uid :: rest.results }
      | .ok (res, none) =>
        let rest := runCablingGo inv ls proc
        { rest with results := res :: rest.results }
      | .ok (res, some c) =>
        let rest := runCablingGo inv ls (uid :: proc)
        { rest with results := res :: rest.results
                    creates := (uid, c) :: rest.creates }

/-- `NetworkImporter.import_cabling_from_configs`, lines 510-645, with
`config.main["import_cabling"]` enabled: run the loop with an empty
`already_connected_links` dictionary. -/
def import_cabling_from_configs (inv : Inventory) (p2p_links : List BfLink) :
    CablingRun :=
  runCablingGo inv p2p_links []

/-- Decidable checker for "every observed link is already connected": every
edge record whose local end resolves to an interface carrying a remote handle
has that handle reporting `connection_status = true`. -/
def allObservedConnected (inv : Inventory) (links : List BfLink) : Bool :=
  links.all fun l =>
    match reSubSubIntf l.Interface.interface with
    | .error _ => true
    | .ok li =>
      match List.lookup l.Interface.hostname inv with
      | none => true
      | some d =>
        match List.lookup li d.interfaces with
        | none => true
        | some itf =>
          match itf.remote with
          | none => true
          | some r => r.connection_status

/-- Decidable checker for the validation-failure conditions of lines 541-582,
in the order the code tests them: a host missing from the inventory, an
interface missing from the interface mapping of its device, or a null remote handle. -/
def observationInvalid (inv : Inventory) (lh li rh ri : String) : Bool :=
  match List.lookup lh inv with
  | none => true
  | some dA =>
    match List.lookup rh inv with
    | none => true
    | some dB =>
      match List.lookup li dA.interfaces with
      | none => true
      | some iA =>
        match List.lookup ri dB.interfaces with
        | none => true
        | some iB => iA.remote.isNone || iB.remote.isNone

/-- The skip-with-diagnostic outcomes of validation steps 3-5 (host missing,
interface missing, virtual interface, null remote handle). -/
def LinkResult.isValidationSkip : LinkResult → Bool
  | .skipHostMissing _ => true
  | .skipIntfMissing _ _ => true
  | .skipVirtual _ _ => true
  | .skipNoRemote _ _ => true
  | _ => false

/-! ### VLAN registry (spec-modelled `add_vlan` plus the two call sites
of `main.py`) -/

/-- The `Vlan` value object handed to `site.add_vlan`. -/
structure Vlan where
  name : String
  vid : Nat
deriving DecidableEq

/-- A site with its per-site VLAN registry keyed by VLAN id. -/
structure NetworkImporterSite where
  name : String
  vlans : List (Nat × Vlan)
deriving DecidableEq

/-- Modelled from the spec: `NetworkImporterSite.add_vlan` lives in
`network_importer/model.py`, which is not among the sources (only its call
sites in `main.py` are).  Per §4.3 of the spec it is idempotent keyed by
`(site, vid)`: a first insertion creates the Vlan record under its vid, a
second insertion with the same vid merges into the existing record (keeps the
existing identity) instead of duplicating it. -/
def NetworkImporterSite.add_vlan (s : NetworkImporterSite) (v : Vlan) :
    NetworkImporterSite :=
  if s.vlans.any (fun p => p.1 == v.vid) then s
  else { s with vlans := s.vlans ++ [(v.vid, v)] }

/-- The VLAN insertion of `import_devices_from_configs`, lines 252-260:
unconditionally `dev.site.add_vlan(Vlan(name=f"vlan-{vid}", vid=vid))` for a
VLAN discovered by configuration analysis. -/
def configVlanStep (s : NetworkImporterSite) (vid : Nat) : NetworkImporterSite :=
  s.add_vlan { name := "vlan-" ++ toString vid, vid := vid }

/-- The VLAN insertion of `import_devices_from_cmds`, lines 294-307: a VLAN
discovered over the CLI is added only if its id is not already a key of
`site.vlans`. -/
def cliVlanStep (s : NetworkImporterSite) (name : String) (vid : Nat) :
    NetworkImporterSite :=
  if s.vlans.any (fun p => p.1 == vid) then s
  else s.add_vlan { name := name, vid := vid }

/-- Number of registry entries for one VLAN id. -/
def NetworkImporterSite.vidCount (s : NetworkImporterSite) (vid : Nat) : Nat :=
  (s.vlans.filter (fun p => p.1 == vid)).length

/-! ### Concrete inputs used by the witnesses and counterexamples -/

/-- Two devices, one physical interface each, neither yet cabled. -/
def invTwoNew : Inventory :=
  [("swa", ⟨[("eth0", ⟨false, some ⟨1, false, none⟩⟩)]⟩),
   ("swb", ⟨[("eth1", ⟨false, some ⟨2, false, none⟩⟩)]⟩)]

/-- Two devices whose interfaces both report being cabled to each other. -/
def invTwoConnected : Inventory :=
  [("swa", ⟨[("eth0", ⟨false, some ⟨1, true, some ⟨"swb", "eth1"⟩⟩⟩)]⟩),
   ("swb", ⟨[("eth1", ⟨false, some ⟨2, true, some ⟨"swa", "eth0"⟩⟩⟩)]⟩)]

/-- `swa:eth0` claims a connection to a third device `swx`. -/
def invMismatch : Inventory :=
  [("swa", ⟨[("eth0", ⟨false, some ⟨1, true, some ⟨"swx", "eth9"⟩⟩⟩)]⟩),
   ("swb", ⟨[("eth1", ⟨false, some ⟨2, false, none⟩⟩)]⟩)]

/-- `swa:eth0` reports `connection_status=true` with a null
`connected_endpoint` (malformed remote data: touching it raises
`AttributeError` inside the `try` block). -/
def invNullEndpoint : Inventory :=
  [("swa", ⟨[("eth0", ⟨false, some ⟨1, true, none⟩⟩)]⟩),
   ("swb", ⟨[("eth1", ⟨false, some ⟨2, false, none⟩⟩)]⟩)]

/-- The interface of `swa` is virtual. -/
def invVirtual : Inventory :=
  [("swa", ⟨[("eth0", ⟨true, some ⟨1, false, none⟩⟩)]⟩),
   ("swb", ⟨[("eth1", ⟨false, some ⟨2, false, none⟩⟩)]⟩)]

/-- `swa:eth0` has no remote handle. -/
def invNoRemote : Inventory :=
  [("swa", ⟨[("eth0", ⟨false, none⟩)]⟩),
   ("swb", ⟨[("eth1", ⟨false, some ⟨2, false, none⟩⟩)]⟩)]

/-- The observation `swa:eth0.100 ↔ swb:eth1`. -/
def obsAB : BfLink := ⟨⟨"swa", .str "eth0.100"⟩, ⟨"swb", .str "eth1"⟩⟩

/-- The reversed observation `swb:eth1 ↔ swa:eth0.200` (same physical
link, other direction, other subinterface). -/
def obsBA : BfLink := ⟨⟨"swb", .str "eth1"⟩, ⟨"swa", .str "eth0.200"⟩⟩

/-- An edge record whose local `interface` field is not a string:
`re.sub` raises `TypeError` on it before the `try` block is entered. -/
def obsMalformed : BfLink := ⟨⟨"swa", .nonStr⟩, ⟨"swb", .str "eth1"⟩⟩

/-! ### Helper lemmas -/

lemma sortedPair_comm (x y : String) : sortedPair x y = sortedPair y x := by
  unfold sortedPair
  rcases lt_trichotomy x y with h | h | h
  · rw [if_neg (lt_asymm h), if_pos h]
  · subst h; rfl
  · rw [if_pos h, if_neg (lt_asymm h)]

lemma uniqueIdOf_comm (lh li rh ri : String) :
    uniqueIdOf lh li rh ri = uniqueIdOf rh ri lh li := by
  unfold uniqueIdOf
  rw [sortedPair_comm]

lemma runCablingGo_cons_ok_none {inv : Inventory} {l : BfLink} {ls : List BfLink}
    {proc : List String} {li ri : String} {res : LinkResult}
    (hA : reSubSubIntf l.Interface.interface = .ok li)
    (hB : reSubSubIntf l.Remote_Interface.interface = .ok ri)
    (hT : tryBody inv proc l.Interface.hostname li l.Remote_Interface.hostname ri
      (uniqueIdOf l.Interface.hostname li l.Remote_Interface.hostname ri) = .ok (res, none)) :
    runCablingGo inv (l :: ls) proc =
      { runCablingGo inv ls proc with
        results := res :: (runCablingGo inv ls proc).results } := by
  simp only [runCablingGo, hA, hB, hT]

lemma runCablingGo_cons_ok_some {inv : Inventory} {l : BfLink} {ls : List BfLink}
    {proc : List String} {li ri : String} {res : LinkResult} {c : Nat × Nat}
    (hA : reSubSubIntf l.Interface.interface = .ok li)
    (hB : reSubSubIntf l.Remote_Interface.interface = .ok ri)
    (hT : tryBody inv proc l.Interface.hostname li l.Remote_Interface.hostname ri
      (uniqueIdOf l.Interface.hostname li l.Remote_Interface.hostname ri) = .ok (res, some c)) :
    runCablingGo inv (l :: ls) proc =
      (fun uid rest =>
        { rest with results := res :: rest.results
                    creates := (uid, c) :: rest.creates })
        (uniqueIdOf l.Interface.hostname li l.Remote_Interface.hostname ri)
        (runCablingGo inv ls
          (uniqueIdOf l.Interface.hostname li l.Remote_Interface.hostname ri :: proc)) := by
  simp only [runCablingGo, hA, hB, hT]

lemma runCablingGo_cons_fault {inv : Inventory} {l : BfLink} {ls : List BfLink}
    {proc : List String} {li ri : String} {f : PyFault}
    (hA : reSubSubIntf l.Interface.interface = .ok li)
    (hB : reSubSubIntf l.Remote_Interface.interface = .ok ri)
    (hT : tryBody inv proc l.Interface.hostname li l.Remote_Interface.hostname ri
      (uniqueIdOf l.Interface.hostname li l.Remote_Interface.hostname ri) = .error f) :
    runCablingGo inv (l :: ls) proc =
      { runCablingGo inv ls proc with
        results := .caughtFault
          (uniqueIdOf l.Interface.hostname li l.Remote_Interface.hostname ri) ::
            (runCablingGo inv ls proc).results } := by
  simp only [runCablingGo, hA, hB, hT]

/-- Inversion of the creation branch: the only way `tryBody` issues a
cable-creation request is with the key unprocessed, both hosts and both
interfaces resolved, neither virtual, both remote handles present, and both
ends reporting `connection_status = false`. -/
lemma tryBody_ok_some {inv : Inventory} {proc : List String}
    {lh li rh ri uid : String} {res : LinkResult} {c : Nat × Nat}
    (h : tryBody inv proc lh li rh ri uid = .ok (res, some c)) :
    proc.contains uid = false ∧
    ∃ dA dB iA iB ra rb,
      List.lookup lh inv = some dA ∧ List.lookup rh inv = some dB ∧
      List.lookup li dA.interfaces = some iA ∧
      List.lookup ri dB.interfaces = some iB ∧
      iA.is_virtual = false ∧ iB.is_virtual = false ∧
      iA.remote = some ra ∧ iB.remote = some rb ∧
      ra.connection_status = false ∧ rb.connection_status = false ∧
      res = .created ra.id rb.id ∧ c = (ra.id, rb.id) := by
  unfold tryBody checkEnds at h
  repeat' split at h
  all_goals simp_all

/-- The loop never changes the inventory, whatever the observations. -/
lemma runCablingGo_inv_eq (inv : Inventory) :
    ∀ (ls : List BfLink) (proc : List String),
      (runCablingGo inv ls proc).inv = inv := by
  intro ls
  induction ls with
  | nil => intro proc; rfl
  | cons l ls ih =>
    intro proc
    cases hA : reSubSubIntf l.Interface.interface with
    | error f => simp [runCablingGo, hA]
    | ok li =>
      cases hB : reSubSubIntf l.Remote_Interface.interface with
      | error f => simp [runCablingGo, hA, hB]
      | ok ri =>
        cases hT : tryBody inv proc l.Interface.hostname li l.Remote_Interface.hostname ri
            (uniqueIdOf l.Interface.hostname li l.Remote_Interface.hostname ri) with
        | error f => rw [runCablingGo_cons_fault hA hB hT]; exact ih proc
        | ok rc =>
          rcases rc with ⟨res, c⟩
          cases c with
          | none => rw [runCablingGo_cons_ok_none hA hB hT]; exact ih proc
          | some c => rw [runCablingGo_cons_ok_some hA hB hT]; exact ih _

/-- Invariant of the loop: the canonical keys of the emitted cable-creation
requests are pairwise distinct, and none of them was in
`already_connected_links` at entry. -/
lemma runCablingGo_creates_invariant (inv : Inventory) :
    ∀ (ls : List BfLink) (proc : List String),
      ((runCablingGo inv ls proc).creates.map (fun c => c.1)).Nodup ∧
      ∀ u ∈ (runCablingGo inv ls proc).creates.map (fun c => c.1), u ∉ proc := by
  intro ls
  induction ls with
  | nil =>
    intro proc
    constructor
    · simp [runCablingGo]
    · intro u hu
      simp [runCablingGo] at hu
  | cons l ls ih =>
    intro proc
    cases hA : reSubSubIntf l.Interface.interface with
    | error f =>
      constructor
      · simp [runCablingGo, hA]
      · intro u hu
        simp [runCablingGo, hA] at hu
    | ok li =>
      cases hB : reSubSubIntf l.Remote_Interface.interface with
      | error f =>
        constructor
        · simp [runCablingGo, hA, hB]
        · intro u hu
          simp [runCablingGo, hA, hB] at hu
      | ok ri =>
        cases hT : tryBody inv proc l.Interface.hostname li l.Remote_Interface.hostname ri
            (uniqueIdOf l.Interface.hostname li l.Remote_Interface.hostname ri) with
        | error f =>
          rw [runCablingGo_cons_fault hA hB hT]; exact ih proc
        | ok rc =>
          rcases rc with ⟨res, c⟩
          cases c with
          | none => rw [runCablingGo_cons_ok_none hA hB hT]; exact ih proc
          | some c =>
            rw [runCablingGo_cons_ok_some hA hB hT]
            have hnotin : uniqueIdOf l.Interface.hostname li l.Remote_Interface.hostname ri
                ∉ proc := by
              have := (tryBody_ok_some hT).1
              simpa using this
            have ihx := ih (uniqueIdOf l.Interface.hostname li l.Remote_Interface.hostname ri
                :: proc)
            constructor
            · simp only [List.map_cons, List.nodup_cons]
              refine ⟨fun hmem => ?_, ihx.1⟩
              exact (ihx.2 _ hmem) (List.mem_cons_self _ _)
            · intro u hu
              simp only [List.map_cons, List.mem_cons] at hu
              rcases hu with hu | hu
              · subst hu; exact hnotin
              · exact fun hmem => (ihx.2 u hu) (List.mem_cons_of_mem _ hmem)

/-- If every observed link is already connected at its local end, the loop
emits no cable-creation request at all. -/
lemma runCablingGo_creates_nil (inv : Inventory) :
    ∀ (ls : List BfLink) (proc : List String),
      allObservedConnected inv ls = true →
      (runCablingGo inv ls proc).creates = [] := by
  intro ls
  induction ls with
  | nil => intro proc _; rfl
  | cons l ls ih =>
    intro proc h
    simp only [allObservedConnected, List.all_cons, Bool.and_eq_true] at h
    obtain ⟨hHead, hTail⟩ := h
    have hTail2 : allObservedConnected inv ls = true := hTail
    cases hA : reSubSubIntf l.Interface.interface with
    | error f => simp [runCablingGo, hA]
    | ok li =>
      cases hB : reSubSubIntf l.Remote_Interface.interface with
      | error f => simp [runCablingGo, hA, hB]
      | ok ri =>
        cases hT : tryBody inv proc l.Interface.hostname li l.Remote_Interface.hostname ri
            (uniqueIdOf l.Interface.hostname li l.Remote_Interface.hostname ri) with
        | error f =>
          rw [runCablingGo_cons_fault hA hB hT]
          exact ih proc hTail2
        | ok rc =>
          rcases rc with ⟨res, c⟩
          cases c with
          | none =>
            rw [runCablingGo_cons_ok_none hA hB hT]
            exact ih proc hTail2
          | some c =>
            obtain ⟨-, dA, dB, iA, iB, ra, rb, hdA, hdB, hiA, hiB, -, -, hrA, hrB,
              hcA, hcB, -, -⟩ := tryBody_ok_some hT
            simp [hA, hdA, hiA, hrA, hcA] at hHead

/-! ### Claim theorems -/

/-- C1 (cabling idempotence): in any run of the cabling pass the canonical
keys attached to the emitted Create actions are pairwise distinct — the two
directions of one physical link share one canonical key, so at most one
Create action is emitted per physical link; and run against a state in which
every observed link is already connected, the pass emits zero Create
actions. -/
theorem C1_cabling_idempotence (inv : Inventory) (links : List BfLink) :
    (((import_cabling_from_configs inv links).creates.map (fun c => c.1)).Nodup) ∧
    (allObservedConnected inv links = true →
      (import_cabling_from_configs inv links).creates = []) :=
  ⟨(runCablingGo_creates_invariant inv links []).1,
   fun h => runCablingGo_creates_nil inv links [] h⟩

/-- Witness for C1: an already-connected two-device network observed in both
directions yields no Create action. -/
theorem C1_witness :
    (((import_cabling_from_configs invTwoConnected [obsAB, obsBA]).creates.map
      (fun c => c.1)).Nodup) ∧
    (import_cabling_from_configs invTwoConnected [obsAB, obsBA]).creates = [] :=
  ⟨(C1_cabling_idempotence invTwoConnected [obsAB, obsBA]).1,
   (C1_cabling_idempotence invTwoConnected [obsAB, obsBA]).2 rfl⟩

/-- C2 (conflict precedence): when an observation passes deduplication and
validation and its local end reports `connection_status=true` with a
recorded endpoint on a device other than the observed far end, the pass
records a device-mismatch conflict for it and nothing else: no creation
request, no new processed key, and the rest of the run proceeds from an
unchanged state. -/
theorem C2_conflict_precedence (inv : Inventory) (l : BfLink) (ls : List BfLink)
    (proc : List String) (li ri : String) (dA dB : NetworkImporterDevice)
    (iA iB : NetworkImporterInterface) (lrem rrem : RemoteInterface)
    (ce : ConnectedEndpointRef)
    (hA : reSubSubIntf l.Interface.interface = .ok li)
    (hB : reSubSubIntf l.Remote_Interface.interface = .ok ri)
    (huid : uniqueIdOf l.Interface.hostname li l.Remote_Interface.hostname ri ∉ proc)
    (hdA : List.lookup l.Interface.hostname inv = some dA)
    (hdB : List.lookup l.Remote_Interface.hostname inv = some dB)
    (hiA : List.lookup li dA.interfaces = some iA)
    (hiB : List.lookup ri dB.interfaces = some iB)
    (hvA : iA.is_virtual = false) (hvB : iB.is_virtual = false)
    (hrA : iA.remote = some lrem) (hrB : iB.remote = some rrem)
    (hcs : lrem.connection_status = true)
    (hce : lrem.connected_endpoint = some ce)
    (hne : ce.deviceName ≠ l.Remote_Interface.hostname) :
    runCablingGo inv (l :: ls) proc =
      { runCablingGo inv ls proc with
        results := .conflictDevice l.Interface.hostname li ce.deviceName
          l.Remote_Interface.hostname :: (runCablingGo inv ls proc).results } := by
  have hT : tryBody inv proc l.Interface.hostname li l.Remote_Interface.hostname ri
      (uniqueIdOf l.Interface.hostname li l.Remote_Interface.hostname ri) =
      .ok (.conflictDevice l.Interface.hostname li ce.deviceName
        l.Remote_Interface.hostname, none) := by
    unfold tryBody checkEnds
    simp [huid, hdA, hdB, hiA, hiB, hvA, hvB, hrA, hrB, hcs, hce, hne]
  exact runCablingGo_cons_ok_none hA hB hT

/-- Witness for C2: `swa:eth0` claims a connection to `swx`, the observation
reports the far end `swb`; the run records the device mismatch and changes
nothing else. -/
theorem C2_witness :
    runCablingGo invMismatch [obsAB] [] =
      { runCablingGo invMismatch ([] : List BfLink) [] with
        results := .conflictDevice "swa" "eth0" "swx" "swb" ::
          (runCablingGo invMismatch ([] : List BfLink) []).results } :=
  C2_conflict_precedence invMismatch obsAB [] [] "eth0" "eth1" _ _ _ _ _ _ _
    rfl rfl (by simp) rfl rfl rfl rfl rfl rfl rfl rfl rfl rfl (by decide)

/-- C3 (canonical link key): the canonical key strips a trailing dot-digits
subinterface suffix from each interface name and joins the two sorted
`host:interface` strings, so the key is invariant under swapping the two
observed endpoints, and two subinterfaces of the same physical port
(`Gi0/1.100`, `Gi0/1.200`) canonicalize to the same name `Gi0/1` and hence
to the same key. -/
theorem C3_canonical_key :
    (∀ lh li rh ri : String, uniqueIdOf lh li rh ri = uniqueIdOf rh ri lh li) ∧
    stripSubIntf "Gi0/1.100" = "Gi0/1" ∧
    stripSubIntf "Gi0/1.200" = "Gi0/1" ∧
    ∀ hA hB iB : String,
      uniqueIdOf hA (stripSubIntf "Gi0/1.100") hB iB =
        uniqueIdOf hA (stripSubIntf "Gi0/1.200") hB iB :=
  ⟨uniqueIdOf_comm, rfl, rfl, fun _ _ _ => rfl⟩

/-- C4 (virtual exclusion): an observation one of whose resolved endpoint
interfaces is virtual contributes no Create action and no processed key:
the run over the remaining observations starts from an unchanged state. -/
theorem C4_virtual_exclusion (inv : Inventory) (l : BfLink) (ls : List BfLink)
    (proc : List String) (li ri : String) (dA dB : NetworkImporterDevice)
    (iA iB : NetworkImporterInterface)
    (hA : reSubSubIntf l.Interface.interface = .ok li)
    (hB : reSubSubIntf l.Remote_Interface.interface = .ok ri)
    (hdA : List.lookup l.Interface.hostname inv = some dA)
    (hdB : List.lookup l.Remote_Interface.hostname inv = some dB)
    (hiA : List.lookup li dA.interfaces = some iA)
    (hiB : List.lookup ri dB.interfaces = some iB)
    (hv : iA.is_virtual = true ∨ iB.is_virtual = true) :
    (runCablingGo inv (l :: ls) proc).creates = (runCablingGo inv ls proc).creates ∧
    (runCablingGo inv (l :: ls) proc).processed =
      (runCablingGo inv ls proc).processed := by
  by_cases hdup :
      uniqueIdOf l.Interface.hostname li l.Remote_Interface.hostname ri ∈ proc
  · have hT : tryBody inv proc l.Interface.hostname li l.Remote_Interface.hostname ri
        (uniqueIdOf l.Interface.hostname li l.Remote_Interface.hostname ri) =
        .ok (.skipDuplicate
          (uniqueIdOf l.Interface.hostname li l.Remote_Interface.hostname ri), none) := by
      unfold tryBody
      simp [hdup]
    rw [runCablingGo_cons_ok_none hA hB hT]
    exact ⟨rfl, rfl⟩
  · cases hvA : iA.is_virtual with
    | true =>
      have hT : tryBody inv proc l.Interface.hostname li l.Remote_Interface.hostname ri
          (uniqueIdOf l.Interface.hostname li l.Remote_Interface.hostname ri) =
          .ok (.skipVirtual l.Interface.hostname li, none) := by
        unfold tryBody checkEnds
        simp [hdup, hdA, hdB, hiA, hiB, hvA]
      rw [runCablingGo_cons_ok_none hA hB hT]
      exact ⟨rfl, rfl⟩
    | false =>
      have hvB : iB.is_virtual = true := by
        rcases hv with hv | hv
        · rw [hvA] at hv; cases hv
        · exact hv
      have hT : tryBody inv proc l.Interface.hostname li l.Remote_Interface.hostname ri
          (uniqueIdOf l.Interface.hostname li l.Remote_Interface.hostname ri) =
          .ok (.skipVirtual l.Remote_Interface.hostname ri, none) := by
        unfold tryBody checkEnds
        simp [hdup, hdA, hdB, hiA, hiB, hvA, hvB]
      rw [runCablingGo_cons_ok_none hA hB hT]
      exact ⟨rfl, rfl⟩

/-- Witness for C4 on a concrete virtual interface. -/
theorem C4_witness :
    (runCablingGo invVirtual [obsAB] []).creates =
      (runCablingGo invVirtual ([] : List BfLink) []).creates ∧
    (runCablingGo invVirtual [obsAB] []).processed =
      (runCablingGo invVirtual ([] : List BfLink) []).processed :=
  C4_virtual_exclusion invVirtual obsAB [] [] "eth0" "eth1" _ _ _ _
    rfl rfl rfl rfl rfl rfl (Or.inl rfl)

/-- C5 counterexample: on an exact match the code does NOT mark the canonical
key as processed — `already_connected_links` stays empty — and the
reversed-direction observation is examined again by the exact-match check (its
outcome is `alreadyExact`, not `skipDuplicate`), contrary to the claim that it
is skipped by deduplication. -/
theorem C5_cex :
    (import_cabling_from_configs invTwoConnected [obsAB, obsBA]).results =
      [.alreadyExact true, .alreadyExact true] ∧
    (import_cabling_from_configs invTwoConnected [obsAB]).processed = [] :=
  ⟨rfl, rfl⟩

/-- C5 (amended, exact-match handling): when the local end of a validated
observation reports `connection_status=true` with a recorded endpoint exactly
matching the observed far end, the pass takes no action — no creation, no
conflict report — but does NOT mark the canonical key as processed: the rest
of the run proceeds from an unchanged state, and a reversed-direction
observation is examined independently (also resulting in no action) rather
than being skipped by deduplication. -/
theorem C5_exact_match (inv : Inventory) (l : BfLink) (ls : List BfLink)
    (proc : List String) (li ri : String) (dA dB : NetworkImporterDevice)
    (iA iB : NetworkImporterInterface) (lrem rrem : RemoteInterface)
    (ce : ConnectedEndpointRef)
    (hA : reSubSubIntf l.Interface.interface = .ok li)
    (hB : reSubSubIntf l.Remote_Interface.interface = .ok ri)
    (huid : uniqueIdOf l.Interface.hostname li l.Remote_Interface.hostname ri ∉ proc)
    (hdA : List.lookup l.Interface.hostname inv = some dA)
    (hdB : List.lookup l.Remote_Interface.hostname inv = some dB)
    (hiA : List.lookup li dA.interfaces = some iA)
    (hiB : List.lookup ri dB.interfaces = some iB)
    (hvA : iA.is_virtual = false) (hvB : iB.is_virtual = false)
    (hrA : iA.remote = some lrem) (hrB : iB.remote = some rrem)
    (hcs : lrem.connection_status = true)
    (hce : lrem.connected_endpoint = some ce)
    (hde : ce.deviceName = l.Remote_Interface.hostname)
    (hin : ce.name = ri) :
    runCablingGo inv (l :: ls) proc =
      { runCablingGo inv ls proc with
        results := .alreadyExact true :: (runCablingGo inv ls proc).results } := by
  have hT : tryBody inv proc l.Interface.hostname li l.Remote_Interface.hostname ri
      (uniqueIdOf l.Interface.hostname li l.Remote_Interface.hostname ri) =
      .ok (.alreadyExact true, none) := by
    unfold tryBody checkEnds
    simp [huid, hdA, hdB, hiA, hiB, hvA, hvB, hrA, hrB, hcs, hce, hde, hin]
  exact runCablingGo_cons_ok_none hA hB hT

/-- Witness for the amended C5 at a concrete exactly-matching observation. -/
theorem C5_witness :
    runCablingGo invTwoConnected [obsAB] [] =
      { runCablingGo invTwoConnected ([] : List BfLink) [] with
        results := .alreadyExact true ::
          (runCablingGo invTwoConnected ([] : List BfLink) []).results } :=
  C5_exact_match invTwoConnected obsAB [] [] "eth0" "eth1" _ _ _ _ _ _ _
    rfl rfl (by simp) rfl rfl rfl rfl rfl rfl rfl rfl rfl rfl rfl rfl

/-- C6 (validation skips): an observation whose hosts, interfaces or remote
handles fail the existence checks of lines 541-582 produces a
skip-with-diagnostic outcome, no creation request, no processed key, and the
rest of the run proceeds from an unchanged state. -/
theorem C6_validation_skips (inv : Inventory) (l : BfLink) (ls : List BfLink)
    (proc : List String) (li ri : String)
    (hA : reSubSubIntf l.Interface.interface = .ok li)
    (hB : reSubSubIntf l.Remote_Interface.interface = .ok ri)
    (huid : uniqueIdOf l.Interface.hostname li l.Remote_Interface.hostname ri ∉ proc)
    (hbad : observationInvalid inv l.Interface.hostname li
      l.Remote_Interface.hostname ri = true) :
    ∃ res, res.isValidationSkip = true ∧
      tryBody inv proc l.Interface.hostname li l.Remote_Interface.hostname ri
        (uniqueIdOf l.Interface.hostname li l.Remote_Interface.hostname ri) =
        .ok (res, none) ∧
      runCablingGo inv (l :: ls) proc =
        { runCablingGo inv ls proc with
          results := res :: (runCablingGo inv ls proc).results } := by
  unfold observationInvalid at hbad
  cases hdA : List.lookup l.Interface.hostname inv with
  | none =>
    have hT : tryBody inv proc l.Interface.hostname li l.Remote_Interface.hostname ri
        (uniqueIdOf l.Interface.hostname li l.Remote_Interface.hostname ri) =
        .ok (.skipHostMissing l.Interface.hostname, none) := by
      unfold tryBody
      simp [huid, hdA]
    exact ⟨.skipHostMissing l.Interface.hostname, rfl, hT, runCablingGo_cons_ok_none hA hB hT⟩
  | some dA =>
    cases hdB : List.lookup l.Remote_Interface.hostname inv with
    | none =>
      have hT : tryBody inv proc l.Interface.hostname li l.Remote_Interface.hostname ri
          (uniqueIdOf l.Interface.hostname li l.Remote_Interface.hostname ri) =
          .ok (.skipHostMissing l.Remote_Interface.hostname, none) := by
        unfold tryBody
        simp [huid, hdA, hdB]
      exact ⟨.skipHostMissing l.Remote_Interface.hostname, rfl, hT, runCablingGo_cons_ok_none hA hB hT⟩
    | some dB =>
      cases hiA : List.lookup li dA.interfaces with
      | none =>
        have hT : tryBody inv proc l.Interface.hostname li
            l.Remote_Interface.hostname ri
            (uniqueIdOf l.Interface.hostname li l.Remote_Interface.hostname ri) =
            .ok (.skipIntfMissing l.Interface.hostname li, none) := by
          unfold tryBody
          simp [huid, hdA, hdB, hiA]
        exact ⟨.skipIntfMissing l.Interface.hostname li, rfl, hT, runCablingGo_cons_ok_none hA hB hT⟩
      | some iA =>
        cases hiB : List.lookup ri dB.interfaces with
        | none =>
          have hT : tryBody inv proc l.Interface.hostname li
              l.Remote_Interface.hostname ri
              (uniqueIdOf l.Interface.hostname li l.Remote_Interface.hostname ri) =
              .ok (.skipIntfMissing l.Remote_Interface.hostname ri, none) := by
            unfold tryBody
            simp [huid, hdA, hdB, hiA, hiB]
          exact ⟨.skipIntfMissing l.Remote_Interface.hostname ri, rfl, hT, runCablingGo_cons_ok_none hA hB hT⟩
        | some iB =>
          cases hvA : iA.is_virtual with
          | true =>
            have hT : tryBody inv proc l.Interface.hostname li
                l.Remote_Interface.hostname ri
                (uniqueIdOf l.Interface.hostname li l.Remote_Interface.hostname ri) =
                .ok (.skipVirtual l.Interface.hostname li, none) := by
              unfold tryBody checkEnds
              simp [huid, hdA, hdB, hiA, hiB, hvA]
            exact ⟨.skipVirtual l.Interface.hostname li, rfl, hT, runCablingGo_cons_ok_none hA hB hT⟩
          | false =>
            cases hvB : iB.is_virtual with
            | true =>
              have hT : tryBody inv proc l.Interface.hostname li
                  l.Remote_Interface.hostname ri
                  (uniqueIdOf l.Interface.hostname li l.Remote_Interface.hostname ri) =
                  .ok (.skipVirtual l.Remote_Interface.hostname ri, none) := by
                unfold tryBody checkEnds
                simp [huid, hdA, hdB, hiA, hiB, hvA, hvB]
              exact ⟨.skipVirtual l.Remote_Interface.hostname ri, rfl, hT, runCablingGo_cons_ok_none hA hB hT⟩
            | false =>
              cases hrA : iA.remote with
              | none =>
                have hT : tryBody inv proc l.Interface.hostname li
                    l.Remote_Interface.hostname ri
                    (uniqueIdOf l.Interface.hostname li
                      l.Remote_Interface.hostname ri) =
                    .ok (.skipNoRemote l.Interface.hostname li, none) := by
                  unfold tryBody checkEnds
                  simp [huid, hdA, hdB, hiA, hiB, hvA, hvB, hrA]
                exact ⟨.skipNoRemote l.Interface.hostname li, rfl, hT, runCablingGo_cons_ok_none hA hB hT⟩
              | some ra =>
                cases hrB : iB.remote with
                | none =>
                  have hT : tryBody inv proc l.Interface.hostname li
                      l.Remote_Interface.hostname ri
                      (uniqueIdOf l.Interface.hostname li
                        l.Remote_Interface.hostname ri) =
                      .ok (.skipNoRemote l.Remote_Interface.hostname ri, none) := by
                    unfold tryBody checkEnds
                    simp [huid, hdA, hdB, hiA, hiB, hvA, hvB, hrA, hrB]
                  exact ⟨.skipNoRemote l.Remote_Interface.hostname ri, rfl, hT, runCablingGo_cons_ok_none hA hB hT⟩
                | some rb =>
                  simp [hdA, hdB, hiA, hiB, hrA, hrB] at hbad

/-- Witness for C6: `swa:eth0` has no remote handle; the observation is
skipped with a diagnostic and nothing else happens. -/
theorem C6_witness :
    ∃ res, LinkResult.isValidationSkip res = true ∧
      tryBody invNoRemote [] "swa" "eth0" "swb" "eth1"
        (uniqueIdOf "swa" "eth0" "swb" "eth1") = .ok (res, none) ∧
      runCablingGo invNoRemote [obsAB] [] =
        { runCablingGo invNoRemote ([] : List BfLink) [] with
          results := res :: (runCablingGo invNoRemote ([] : List BfLink) []).results } :=
  C6_validation_skips invNoRemote obsAB [] [] "eth0" "eth1" rfl rfl (by simp) rfl

/-- C7 (frame property): the cabling pass never modifies the inventory — in
particular no remote interface state and no recorded connected endpoint is
overwritten; the only outputs of the pass are its per-observation decisions,
the emitted cable-creation requests and the processed-key set. -/
theorem C7_frame (inv : Inventory) (links : List BfLink) :
    (import_cabling_from_configs inv links).inv = inv :=
  runCablingGo_inv_eq inv links []

/-- C9 counterexample: an observation whose `interface` field is malformed
(non-string) makes the endpoint extraction — which runs before the `try`
block — raise `TypeError`: the pass aborts and the following well-formed
observation is never processed, instead of the fault being logged and the
pass continuing. -/
theorem C9_cex :
    (import_cabling_from_configs invTwoNew [obsMalformed, obsAB]).aborted = true ∧
    (import_cabling_from_configs invTwoNew [obsMalformed, obsAB]).results = [] ∧
    (import_cabling_from_configs invTwoNew [obsAB]).results = [.created 1 2] :=
  ⟨rfl, rfl, rfl⟩

/-- C9 (amended, per-observation fault isolation): a fault raised inside the
guarded region of the loop body — from deduplication through cable creation —
is caught, recorded against the canonical key of the observation, and the
pass continues with the next observation from an unchanged state; only a
fault raised during endpoint extraction and key computation, which precede
the `try` block, aborts the pass. -/
theorem C9_fault_isolation (inv : Inventory) (l : BfLink) (ls : List BfLink)
    (proc : List String) (li ri : String) (f : PyFault)
    (hA : reSubSubIntf l.Interface.interface = .ok li)
    (hB : reSubSubIntf l.Remote_Interface.interface = .ok ri)
    (hT : tryBody inv proc l.Interface.hostname li l.Remote_Interface.hostname ri
      (uniqueIdOf l.Interface.hostname li l.Remote_Interface.hostname ri) =
      .error f) :
    runCablingGo inv (l :: ls) proc =
      { runCablingGo inv ls proc with
        results := .caughtFault
          (uniqueIdOf l.Interface.hostname li l.Remote_Interface.hostname ri) ::
            (runCablingGo inv ls proc).results } :=
  runCablingGo_cons_fault hA hB hT

/-- Witness for the amended C9: `swa:eth0` reports `connection_status=true`
with a null `connected_endpoint`; the `AttributeError` raised inside the
`try` block is caught and recorded under the canonical key, and the pass
continues with the reversed observation. -/
theorem C9_witness :
    runCablingGo invNullEndpoint [obsAB, obsBA] [] =
      { runCablingGo invNullEndpoint [obsBA] [] with
        results := .caughtFault (uniqueIdOf "swa" "eth0" "swb" "eth1") ::
          (runCablingGo invNullEndpoint [obsBA] []).results } :=
  C9_fault_isolation invNullEndpoint obsAB [obsBA] [] "eth0" "eth1"
    .attributeError rfl rfl rfl

/-- C10 (one-sided conflict inspection): once the local end of an observation
reports `connection_status=true`, the decision of `checkEnds` is computed
from the locally recorded endpoint alone — the remote connection state of the
far-end interface is never examined, whatever it records, so a mismatch
recorded only at the far end is neither detected nor reported; the far end is
checked only when the local end reports no existing connection. -/
theorem C10_one_sided (lh li rh ri : String) (iA : NetworkImporterInterface)
    (ra : RemoteInterface) (vB : Bool) (rb rb' : RemoteInterface)
    (hrA : iA.remote = some ra) (hcs : ra.connection_status = true) :
    checkEnds lh li rh ri iA ⟨vB, some rb⟩ = checkEnds lh li rh ri iA ⟨vB, some rb'⟩ := by
  unfold checkEnds
  by_cases hvA : iA.is_virtual
  · simp [hvA]
  · cases vB
    · simp [hvA, hrA, hcs]
    · simp [hvA, hrA, hcs]

/-- Witness for C10: the far end recording a conflicting connection to a
third device is indistinguishable from the far end recording no connection
at all, as long as the local end reports being connected. -/
theorem C10_witness :
    checkEnds "swa" "eth0" "swb" "eth1"
      ⟨false, some ⟨1, true, some ⟨"swx", "eth9"⟩⟩⟩
      ⟨false, some ⟨2, true, some ⟨"swz", "eth7"⟩⟩⟩ =
    checkEnds "swa" "eth0" "swb" "eth1"
      ⟨false, some ⟨1, true, some ⟨"swx", "eth9"⟩⟩⟩
      ⟨false, some ⟨2, false, none⟩⟩ :=
  C10_one_sided "swa" "eth0" "swb" "eth1" _ _ false
    ⟨2, true, some ⟨"swz", "eth7"⟩⟩ ⟨2, false, none⟩ rfl rfl

/-- C8 (VLAN merge idempotence): inserting a VLAN id into the registry of a
site from the config-analysis source and then again from the CLI-collection
source leaves exactly one registry entry for that (site, vid). -/
theorem C8_vlan_merge (s : NetworkImporterSite) (vid : Nat) (name : String)
    (h : s.vidCount vid = 0) :
    (cliVlanStep (configVlanStep s vid) name vid).vidCount vid = 1 := by
  have hnil : s.vlans.filter (fun p => p.1 == vid) = [] := by
    have := h
    unfold NetworkImporterSite.vidCount at this
    exact List.length_eq_zero.mp this
  have hnotany : s.vlans.any (fun p => p.1 == vid) = false := by
    cases hany : s.vlans.any (fun p => p.1 == vid) with
    | false => rfl
    | true =>
      obtain ⟨p, hp, hpv⟩ := List.any_eq_true.mp hany
      have hmem : p ∈ s.vlans.filter (fun p => p.1 == vid) :=
        List.mem_filter.mpr ⟨hp, hpv⟩
      rw [hnil] at hmem
      cases hmem
  have hstep1 : configVlanStep s vid =
      { s with vlans := s.vlans ++ [(vid, ⟨"vlan-" ++ toString vid, vid⟩)] } := by
    unfold configVlanStep NetworkImporterSite.add_vlan
    simp [hnotany]
  rw [hstep1]
  have hany2 : ((s.vlans ++ [(vid, (⟨"vlan-" ++ toString vid, vid⟩ : Vlan))]).any
      (fun p => p.1 == vid)) = true := by
    simp [List.any_append]
  unfold cliVlanStep
  simp only [hany2, if_true]
  unfold NetworkImporterSite.vidCount
  simp [List.filter_append, hnil]

/-- Witness for C8 at the concrete example of the spec: site `dc1`, vid 100,
name `prod`. -/
theorem C8_witness :
    (cliVlanStep (configVlanStep ⟨"dc1", []⟩ 100) "prod" 100).vidCount 100 = 1 :=
  C8_vlan_merge ⟨"dc1", []⟩ 100 "prod" rfl

end NetworkImporter
